import Mathlib

/-
  Verification development for qmicli's NAS command module
  (src/cli/qmicli-nas.c).

  The C module is shallowly embedded below: each C function that the
  specification talks about becomes a Lean definition translated from the
  source.  GLib/libqmi collaborators (the transport, the response envelope
  accessors, the string builders) are external; their *interface* is
  modelled by data (Option-valued field groups, an overall result of type
  Except String Unit, an abstract completion event), never their wire
  behaviour.  Side effects are made explicit:

  * printed report lines become values of per-operation Line inductives,
    carrying exactly the values the corresponding g_print call receives
    (with the unit conversions applied at the call site, as in the source);
  * each `shutdown (status)` call (context_free + qmicli_async_operation_done)
    becomes one Bool entry appended to a `shutdowns` list;
  * each field-group accessor invocation becomes one entry of a `probed`
    list, in program order.
-/

namespace QmicliNas

/-! ## Action flags (the eight static gbooleans of qmicli-nas.c) -/

structure Flags where
  get_signal_strength_flag : Bool
  get_signal_info_flag : Bool
  get_serving_system_flag : Bool
  get_technology_preference_flag : Bool
  get_system_selection_preference_flag : Bool
  network_scan_flag : Bool
  reset_flag : Bool
  noop_flag : Bool
deriving DecidableEq, Repr

/-- The sum `n_actions` computed by qmicli_nas_options_enabled (each C
gboolean contributes 0 or 1 to the sum). -/
def countActions (f : Flags) : Nat :=
  f.get_signal_strength_flag.toNat +
  f.get_signal_info_flag.toNat +
  f.get_serving_system_flag.toNat +
  f.get_technology_preference_flag.toNat +
  f.get_system_selection_preference_flag.toNat +
  f.network_scan_flag.toNat +
  f.reset_flag.toNat +
  f.noop_flag.toNat

/-- The two `static` locals of qmicli_nas_options_enabled, made explicit
state. -/
structure OptionsState where
  n_actions : Nat
  checked : Bool
deriving DecidableEq, Repr

/-- State of the statics before the first call. -/
def initialOptionsState : OptionsState := { n_actions := 0, checked := false }

/-- Outcome of one call to qmicli_nas_options_enabled: either the process
exits with EXIT_FAILURE (after printing the given message to stderr), or
the function returns a gboolean. -/
inductive OptionsOutcome
  | exitFailure (message : String)
  | enabled (b : Bool)
deriving DecidableEq, Repr

/-- qmicli_nas_options_enabled, with the static locals threaded as explicit
state.  Mirrors the source: if already checked, return `!!n_actions`;
otherwise compute the sum of the eight flags, exit the process if it
exceeds one, then mark checked and return `!!n_actions`. -/
def qmicli_nas_options_enabled (f : Flags) (s : OptionsState) :
    OptionsOutcome × OptionsState :=
  if s.checked then
    (.enabled (s.n_actions != 0), s)
  else
    let n := countActions f
    if n > 1 then
      (.exitFailure "error: too many NAS actions requested",
       { n_actions := n, checked := false })
    else
      (.enabled (n != 0), { n_actions := n, checked := true })

/-! ## Invocation context and the run entry point -/

/-- The Context slice object: one Bool per held reference. -/
structure Context where
  device : Bool
  client : Bool
  cancellable : Bool
deriving DecidableEq, Repr

/-- The seven submitting operations (noop submits nothing). -/
inductive Operation
  | getSignalStrength
  | getSignalInfo
  | getServingSystem
  | getTechnologyPreference
  | getSystemSelectionPreference
  | networkScan
  | reset
deriving DecidableEq, Repr

/-- The bits OR-ed into the constant request mask of
get_signal_strength_input_create. -/
inductive SignalStrengthRequestBit
  | rssi
  | ecio
  | io_bit
  | sinr
  | rsrq
  | lte_snr
  | lte_rsrp
deriving DecidableEq, Repr

/-- QmiMessageNasGetSignalStrengthInput: just the request mask set on it. -/
structure SignalStrengthInput where
  request_mask : List SignalStrengthRequestBit
deriving DecidableEq, Repr

/-- get_signal_strength_input_create.  The external
qmi_message_nas_get_signal_strength_input_set_request_mask call may fail;
the source only branches on its success, so that is taken as a Bool
parameter.  Returns the input (NULL on failure, as in the source) together
with whether the "couldn't create input data bundle" error was printed. -/
def get_signal_strength_input_create (set_request_mask_ok : Bool) :
    Option SignalStrengthInput × Bool :=
  if set_request_mask_ok then
    (some { request_mask := [.rssi, .ecio, .io_bit, .sinr, .rsrq, .lte_snr, .lte_rsrp] },
     false)
  else
    (none, true)

/-- What qmicli_nas_run leaves pending when it returns: an asynchronous
submission with a registered completion callback, the idle-scheduled noop
callback, or nothing at all (the final g_warn_if_reached branch). -/
inductive Pending
  | submitted (op : Operation) (payload : Option SignalStrengthInput) (timeout : Nat)
  | idleScheduled
  | none_pending
deriving DecidableEq, Repr

/-- Everything observable about one qmicli_nas_run call. -/
structure RunResult where
  ctx : Option Context
  input_create_error : Bool
  pending : Pending
  shutdowns : List Bool
deriving DecidableEq, Repr

/-- qmicli_nas_run.  Allocates the context (taking a device and a client
reference, and a cancellable reference when one was given), then walks the
flag chain in source order; the first set flag decides the submission.
`set_request_mask_ok` stands for the success of the external mask-setting
call inside get_signal_strength_input_create. -/
def qmicli_nas_run (f : Flags) (cancellable : Bool) (set_request_mask_ok : Bool) :
    RunResult :=
  let c : Context := { device := true, client := true, cancellable := cancellable }
  if f.get_signal_strength_flag then
    let created := get_signal_strength_input_create set_request_mask_ok
    { ctx := some c, input_create_error := created.2,
      pending := .submitted .getSignalStrength created.1 10, shutdowns := [] }
  else if f.get_signal_info_flag then
    { ctx := some c, input_create_error := false,
      pending := .submitted .getSignalInfo none 10, shutdowns := [] }
  else if f.get_serving_system_flag then
    { ctx := some c, input_create_error := false,
      pending := .submitted .getServingSystem none 10, shutdowns := [] }
  else if f.get_technology_preference_flag then
    { ctx := some c, input_create_error := false,
      pending := .submitted .getTechnologyPreference none 10, shutdowns := [] }
  else if f.get_system_selection_preference_flag then
    { ctx := some c, input_create_error := false,
      pending := .submitted .getSystemSelectionPreference none 10, shutdowns := [] }
  else if f.network_scan_flag then
    { ctx := some c, input_create_error := false,
      pending := .submitted .networkScan none 300, shutdowns := [] }
  else if f.reset_flag then
    { ctx := some c, input_create_error := false,
      pending := .submitted .reset none 10, shutdowns := [] }
  else if f.noop_flag then
    { ctx := some c, input_create_error := false,
      pending := .idleScheduled, shutdowns := [] }
  else
    { ctx := some c, input_create_error := false,
      pending := .none_pending, shutdowns := [] }

/-! ## Generic decoder shape

Every `*_ready` callback of the source has the same skeleton: the finish
call either fails (transport failure) or yields an output object; then the
overall result is checked; on success the optional field groups are probed
one by one, in a fixed source order, and each present group is printed.
`CbResult` records the three observable effects of one callback run. -/

structure CbResult (T L : Type) where
  probed : List T
  lines : List L
  shutdowns : List Bool
deriving Repr

/-- One sequential `if (accessor (output, ...)) g_print (...)` block of the
source: a group tag paired with the group's printed line when present. -/
def emitLines {T L : Type} (gs : List (T × Option L)) : List L :=
  gs.filterMap (fun q => q.2)

/-- The tags of the groups that actually got printed, in order. -/
def renderedGroups {T L : Type} (gs : List (T × Option L)) : List T :=
  (gs.filter (fun q => q.2.isSome)).map Prod.fst

theorem renderedGroups_eq_filter {T L : Type} (p : T → Bool) :
    ∀ gs : List (T × Option L),
      gs.map (fun q => q.2.isSome) = gs.map (fun q => p q.1) →
      renderedGroups gs = (gs.map Prod.fst).filter p := by
  intro gs
  induction gs with
  | nil => intro _; rfl
  | cons q rest ih =>
    intro h
    simp only [List.map_cons, List.cons.injEq] at h
    obtain ⟨h1, h2⟩ := h
    have ih2 := ih h2
    unfold renderedGroups at ih2 ⊢
    simp only [List.map_cons, List.filter_cons, h1]
    cases hp : p q.1 <;> simp [hp, ih2]

/-! ## get_signal_info_ready -/

/-- SINR-level to dB conversion: get_db_from_sinr_level.  A level outside
the nine known enum values takes the default branch, which issues a
g_warning ("Invalid SINR level") and returns the -G_MAXDOUBLE sentinel;
that branch is the `invalid_warning` constructor. -/
inductive SinrDb
  | db (v : ℚ)
  | invalid_warning (level : Nat)
deriving DecidableEq, Repr

def get_db_from_sinr_level : Nat → SinrDb
  | 0 => .db (-9)
  | 1 => .db (-6)
  | 2 => .db (-(9/2))
  | 3 => .db (-3)
  | 4 => .db (-2)
  | 5 => .db 1
  | 6 => .db 3
  | 7 => .db 6
  | 8 => .db 9
  | level => .invalid_warning level

/-- The decoded QmiMessageNasGetSignalInfoOutput, one Option per optional
field group (raw accessor values: gint8 rssi as Int, guint16 ecio as Nat,
SINR level as Nat, gint32 io as Int, and so on). -/
structure SignalInfoOutput where
  result : Except String Unit
  cdma_signal_strength : Option (Int × Nat)
  hdr_signal_strength : Option (Int × Nat × Nat × Int)
  gsm_signal_strength : Option Int
  wcdma_signal_strength : Option (Int × Nat)
  lte_signal_strength : Option (Int × Int × Int × Int)
  tdma_signal_strength : Option Int

inductive SIGroup
  | cdma
  | hdr
  | gsm
  | wcdma
  | lte
  | tdma
deriving DecidableEq, Repr

/-- The printed lines of get_signal_info_ready, carrying exactly the values
handed to each g_print (unit conversions applied at the call site). -/
inductive SILine
  | errorOperationFailed (message : String)
  | errorResult (message : String)
  | successHeader (device : String)
  | cdma (rssi : Int) (ecio_db : ℚ)
  | hdr (rssi : Int) (ecio_db : ℚ) (sinr_level : Nat) (sinr_db : SinrDb) (io_dbm : Int)
  | gsm (rssi : Int)
  | wcdma (rssi : Int) (ecio_db : ℚ)
  | lte (rssi : Int) (rsrq : Int) (rsrp : Int) (snr_db : ℚ)
  | tdma (rscp : Int)
deriving DecidableEq, Repr

/-- CDMA block: RSSI printed raw, ECIO printed as (-0.5)*ecio. -/
def cdma_signal_line (v : Int × Nat) : SILine :=
  .cdma v.1 (-(1/2 : ℚ) * (v.2 : ℚ))

/-- HDR block: RSSI raw, ECIO as (-0.5)*ecio, SINR level with its dB lookup,
IO raw. -/
def hdr_signal_line : Int × Nat × Nat × Int → SILine
  | (rssi, ecio, sinr_level, io_dbm) =>
    .hdr rssi (-(1/2 : ℚ) * (ecio : ℚ)) sinr_level
      (get_db_from_sinr_level sinr_level) io_dbm

def gsm_signal_line (rssi : Int) : SILine := .gsm rssi

/-- WCDMA block: RSSI raw, ECIO as (-0.5)*ecio. -/
def wcdma_signal_line (v : Int × Nat) : SILine :=
  .wcdma v.1 (-(1/2 : ℚ) * (v.2 : ℚ))

/-- LTE block: RSSI, RSRQ, RSRP raw, SNR as (0.1)*snr. -/
def lte_signal_line : Int × Int × Int × Int → SILine
  | (rssi, rsrq, rsrp, snr) => .lte rssi rsrq rsrp ((1/10 : ℚ) * (snr : ℚ))

def tdma_signal_line (rscp : Int) : SILine := .tdma rscp

/-- The six sequential accessor-and-print blocks of get_signal_info_ready,
in source order. -/
def signalInfoGroups (o : SignalInfoOutput) : List (SIGroup × Option SILine) :=
  [(.cdma, o.cdma_signal_strength.map cdma_signal_line),
   (.hdr, o.hdr_signal_strength.map hdr_signal_line),
   (.gsm, o.gsm_signal_strength.map gsm_signal_line),
   (.wcdma, o.wcdma_signal_strength.map wcdma_signal_line),
   (.lte, o.lte_signal_strength.map lte_signal_line),
   (.tdma, o.tdma_signal_strength.map tdma_signal_line)]

/-- Which groups the envelope carries (the mandatory checks of `servPresent`
style functions below are per-operation). -/
def signalInfoPresent (o : SignalInfoOutput) : SIGroup → Bool
  | .cdma => o.cdma_signal_strength.isSome
  | .hdr => o.hdr_signal_strength.isSome
  | .gsm => o.gsm_signal_strength.isSome
  | .wcdma => o.wcdma_signal_strength.isSome
  | .lte => o.lte_signal_strength.isSome
  | .tdma => o.tdma_signal_strength.isSome

/-- The fixed probe order of get_signal_info_ready. -/
def signalInfoOrder : List SIGroup :=
  [.cdma, .hdr, .gsm, .wcdma, .lte, .tdma]

/-- get_signal_info_ready.  Transport failure → error line, shutdown(FALSE).
Result failure → error line, shutdown(FALSE), no accessor probed.  Success
→ header plus the six probes in fixed order, shutdown(TRUE). -/
def get_signal_info_ready (device : String)
    (res : Except String SignalInfoOutput) : CbResult SIGroup SILine :=
  match res with
  | .error msg =>
    { probed := [], lines := [.errorOperationFailed msg], shutdowns := [false] }
  | .ok output =>
    match output.result with
    | .error msg =>
      { probed := [], lines := [.errorResult msg], shutdowns := [false] }
    | .ok _ =>
      { probed := signalInfoOrder,
        lines := .successHeader device :: emitLines (signalInfoGroups output),
        shutdowns := [true] }

/-! ## get_signal_strength_ready -/

/-- libqmi radio-interface enum values used with explicit constants in the
source (external definitions; the numeric values are the libqmi ones). -/
def QMI_NAS_RADIO_INTERFACE_CDMA_1XEVDO : Nat := 2

def QMI_NAS_RADIO_INTERFACE_LTE : Nat := 8

/-- The decoded QmiMessageNasGetSignalStrengthOutput.  `signal_strength`
is the group read by the accessor whose return value the source ignores
(its values are printed unconditionally); the rest are probed with `if`.
List groups carry (radio_interface, raw value) pairs. -/
structure SignalStrengthOutput where
  result : Except String Unit
  signal_strength : Option (Int × Nat)
  strength_list : Option (List (Nat × Int))
  rssi_list : Option (List (Nat × Nat))
  ecio_list : Option (List (Nat × Nat))
  io_value : Option Int
  sinr : Option Nat
  rsrq : Option (Int × Nat)
  lte_snr : Option Int
  lte_rsrp : Option Int

inductive SSGroup
  | current
  | strength_list
  | rssi_list
  | ecio_list
  | io_group
  | sinr
  | rsrq
  | lte_snr
  | lte_rsrp
deriving DecidableEq, Repr

/-- The printed lines of get_signal_strength_ready.  Each list group is one
source block (header g_print plus the per-element loop), folded into a
single event carrying the per-element printed values in order. -/
inductive SSLine
  | errorOperationFailed (message : String)
  | errorResult (message : String)
  | successHeader (device : String)
  | current (signal : Option (Int × Nat))
  | strength_list (entries : List (Nat × Int))
  | rssi_list (entries : List (Nat × Int))
  | ecio_list (entries : List (Nat × ℚ))
  | io_line (radio_interface : Nat) (io_dbm : Int)
  | sinr_line (radio_interface : Nat) (level : Nat) (sinr_db : SinrDb)
  | rsrq_line (radio_interface : Nat) (rsrq : Int)
  | snr_line (radio_interface : Nat) (snr_db : ℚ)
  | rsrp_line (radio_interface : Nat) (rsrp : Int)
deriving DecidableEq, Repr

/-- "Other:" block: each element printed raw. -/
def strength_list_line (entries : List (Nat × Int)) : SSLine :=
  .strength_list entries

/-- "RSSI:" block: each element's rssi printed as (-1) * rssi. -/
def rssi_list_line (entries : List (Nat × Nat)) : SSLine :=
  .rssi_list (entries.map (fun e => (e.1, (-1 : Int) * (e.2 : Int))))

/-- "ECIO:" block: each element's ecio printed as (-0.5) * ecio. -/
def ecio_list_line (entries : List (Nat × Nat)) : SSLine :=
  .ecio_list (entries.map (fun e => (e.1, -(1/2 : ℚ) * (e.2 : ℚ))))

/-- "IO:" block: printed against the CDMA_1XEVDO interface name. -/
def io_group_line (io_dbm : Int) : SSLine :=
  .io_line QMI_NAS_RADIO_INTERFACE_CDMA_1XEVDO io_dbm

/-- "SINR:" block: level with its dB lookup, CDMA_1XEVDO interface name. -/
def sinr_group_line (level : Nat) : SSLine :=
  .sinr_line QMI_NAS_RADIO_INTERFACE_CDMA_1XEVDO level (get_db_from_sinr_level level)

def rsrq_group_line (v : Int × Nat) : SSLine := .rsrq_line v.2 v.1

/-- "SNR:" block: snr printed as (0.1) * snr, LTE interface name. -/
def lte_snr_line (snr : Int) : SSLine :=
  .snr_line QMI_NAS_RADIO_INTERFACE_LTE ((1/10 : ℚ) * (snr : ℚ))

def lte_rsrp_line (rsrp : Int) : SSLine :=
  .rsrp_line QMI_NAS_RADIO_INTERFACE_LTE rsrp

/-- The probe blocks of get_signal_strength_ready in source order; the
first (Current) block is printed unconditionally. -/
def signalStrengthGroups (o : SignalStrengthOutput) : List (SSGroup × Option SSLine) :=
  [(.current, some (.current o.signal_strength)),
   (.strength_list, o.strength_list.map strength_list_line),
   (.rssi_list, o.rssi_list.map rssi_list_line),
   (.ecio_list, o.ecio_list.map ecio_list_line),
   (.io_group, o.io_value.map io_group_line),
   (.sinr, o.sinr.map sinr_group_line),
   (.rsrq, o.rsrq.map rsrq_group_line),
   (.lte_snr, o.lte_snr.map lte_snr_line),
   (.lte_rsrp, o.lte_rsrp.map lte_rsrp_line)]

def signalStrengthPresent (o : SignalStrengthOutput) : SSGroup → Bool
  | .current => true
  | .strength_list => o.strength_list.isSome
  | .rssi_list => o.rssi_list.isSome
  | .ecio_list => o.ecio_list.isSome
  | .io_group => o.io_value.isSome
  | .sinr => o.sinr.isSome
  | .rsrq => o.rsrq.isSome
  | .lte_snr => o.lte_snr.isSome
  | .lte_rsrp => o.lte_rsrp.isSome

/-- The fixed probe order of get_signal_strength_ready. -/
def signalStrengthOrder : List SSGroup :=
  [.current, .strength_list, .rssi_list, .ecio_list, .io_group,
   .sinr, .rsrq, .lte_snr, .lte_rsrp]

def get_signal_strength_ready (device : String)
    (res : Except String SignalStrengthOutput) : CbResult SSGroup SSLine :=
  match res with
  | .error msg =>
    { probed := [], lines := [.errorOperationFailed msg], shutdowns := [false] }
  | .ok output =>
    match output.result with
    | .error msg =>
      { probed := [], lines := [.errorResult msg], shutdowns := [false] }
    | .ok _ =>
      { probed := signalStrengthOrder,
        lines := .successHeader device :: emitLines (signalStrengthGroups output),
        shutdowns := [true] }

/-! ## get_serving_system_ready -/

/-- The decoded QmiMessageNasGetServingSystemOutput.  `serving_system` is
read by the accessor whose return value the source ignores; every other
group is probed with `if`.  Raw accessor types: enums and unsigned ints as
Nat, gint8/gint32 as Int, gbooleans as Bool. -/
structure ServingSystemOutput where
  result : Except String Unit
  serving_system : Option (Nat × Nat × Nat × Nat × List Nat)
  roaming_indicator : Option Nat
  data_service_capability : Option (List Nat)
  current_plmn : Option (Nat × Nat × String)
  cdma_system_id : Option (Nat × Nat)
  cdma_base_station_info : Option (Nat × Int × Int)
  roaming_indicator_list : Option (List (Nat × Nat))
  default_roaming_indicator : Option Nat
  time_zone_3gpp2 : Option (Nat × Int × Bool)
  cdma_p_rev : Option Nat
  time_zone_3gpp : Option Int
  daylight_saving_time_adjustment_3gpp : Option Nat
  lac_3gpp : Option Nat
  cid_3gpp : Option Nat
  concurrent_service_info_3gpp2 : Option Bool
  prl_indicator_3gpp2 : Option Bool
  dual_transfer_mode_supported : Option Bool
  detailed_service_status : Option (Nat × Nat × Nat × Bool × Bool)
  cdma_system_info : Option (Nat × Nat)
  hdr_personality : Option Nat
  lte_tac : Option Nat
  call_barring_status : Option (Nat × Nat)
  umts_primary_scrambling_code : Option Nat
  mnc_pcs_digit_include_status : Option (Nat × Nat × Bool)

inductive ServGroup
  | serving_system
  | roaming_indicator
  | data_service_capability
  | current_plmn
  | cdma_system_id
  | cdma_base_station_info
  | roaming_indicator_list
  | default_roaming_indicator
  | time_zone_3gpp2
  | cdma_p_rev
  | time_zone_3gpp
  | daylight_saving_time_adjustment_3gpp
  | lac_3gpp
  | cid_3gpp
  | concurrent_service_info_3gpp2
  | prl_indicator_3gpp2
  | dual_transfer_mode_supported
  | detailed_service_status
  | cdma_system_info
  | hdr_personality
  | lte_tac
  | call_barring_status
  | umts_primary_scrambling_code
  | mnc_pcs_digit_include_status
deriving DecidableEq, Repr

/-- The printed lines of get_serving_system_ready; each block folded into
one event carrying the values it prints (conversions applied at the call
site: time-zone offsets in minutes, base-station coordinates in degrees). -/
inductive ServLine
  | errorOperationFailed (message : String)
  | errorResult (message : String)
  | successHeader (device : String)
  | serving_system (v : Option (Nat × Nat × Nat × Nat × List Nat))
  | roaming_indicator (status : Nat)
  | data_service_capability (caps : List Nat)
  | current_plmn (mcc : Nat) (mnc : Nat) (description : String)
  | cdma_system_id (sid : Nat) (nid : Nat)
  | cdma_base_station_info (id : Nat) (latitude_degrees : ℚ) (longitude_degrees : ℚ)
  | roaming_indicator_list (entries : List (Nat × Nat))
  | default_roaming_indicator (status : Nat)
  | time_zone_3gpp2 (leap_seconds : Nat) (offset_minutes : Int) (dst : Bool)
  | cdma_p_rev (p_rev : Nat)
  | time_zone_3gpp (offset_minutes : Int)
  | daylight_saving_time_adjustment_3gpp (hours : Nat)
  | lac_3gpp (lac : Nat)
  | cid_3gpp (cid : Nat)
  | concurrent_service_info_3gpp2 (available : Bool)
  | prl_indicator_3gpp2 (in_prl : Bool)
  | dual_transfer_mode_supported (supported : Bool)
  | detailed_service_status (v : Nat × Nat × Nat × Bool × Bool)
  | cdma_system_info (mcc : Nat) (imsi_11_12 : Nat)
  | hdr_personality (personality : Nat)
  | lte_tac (tac : Nat)
  | call_barring_status (cs : Nat) (ps : Nat)
  | umts_primary_scrambling_code (code : Nat)
  | mnc_pcs_digit_include_status (mcc : Nat) (mnc : Nat) (has_pcs_digit : Bool)

/-- Base-station block: latitude/longitude printed as (raw * 0.25) / 3600
decimal degrees. -/
def cdma_base_station_line : Nat × Int × Int → ServLine
  | (id, latitude, longitude) =>
    .cdma_base_station_info id (((latitude : ℚ) * (1/4)) / 3600)
      (((longitude : ℚ) * (1/4)) / 3600)

/-- 3GPP2 time-zone block: local time offset printed as raw * 30 minutes. -/
def time_zone_3gpp2_line : Nat × Int × Bool → ServLine
  | (leap_seconds, local_time_offset, dst) =>
    .time_zone_3gpp2 leap_seconds (local_time_offset * 30) dst

/-- 3GPP time-zone block: offset printed as raw * 15 minutes. -/
def time_zone_3gpp_line (time_zone : Int) : ServLine :=
  .time_zone_3gpp (time_zone * 15)

def current_plmn_line : Nat × Nat × String → ServLine
  | (mcc, mnc, description) => .current_plmn mcc mnc description

def cdma_system_id_line : Nat × Nat → ServLine
  | (sid, nid) => .cdma_system_id sid nid

def cdma_system_info_line : Nat × Nat → ServLine
  | (mcc, imsi) => .cdma_system_info mcc imsi

def call_barring_line : Nat × Nat → ServLine
  | (cs, ps) => .call_barring_status cs ps

def mnc_pcs_digit_line : Nat × Nat × Bool → ServLine
  | (mcc, mnc, has_pcs_digit) => .mnc_pcs_digit_include_status mcc mnc has_pcs_digit

/-- Probe blocks 1-8 of get_serving_system_ready, in source order; the
first block is printed unconditionally.  (The 24 blocks are split into
three defs only to keep elaboration tractable; their concatenation below
is the full source order.) -/
def servingSystemGroupsA (o : ServingSystemOutput) : List (ServGroup × Option ServLine) :=
  [(.serving_system, some (.serving_system o.serving_system)),
   (.roaming_indicator, o.roaming_indicator.map .roaming_indicator),
   (.data_service_capability, o.data_service_capability.map .data_service_capability),
   (.current_plmn, o.current_plmn.map current_plmn_line),
   (.cdma_system_id, o.cdma_system_id.map cdma_system_id_line),
   (.cdma_base_station_info, o.cdma_base_station_info.map cdma_base_station_line),
   (.roaming_indicator_list, o.roaming_indicator_list.map .roaming_indicator_list),
   (.default_roaming_indicator, o.default_roaming_indicator.map .default_roaming_indicator)]

/-- Probe blocks 9-16 of get_serving_system_ready, in source order. -/
def servingSystemGroupsB (o : ServingSystemOutput) : List (ServGroup × Option ServLine) :=
  [(.time_zone_3gpp2, o.time_zone_3gpp2.map time_zone_3gpp2_line),
   (.cdma_p_rev, o.cdma_p_rev.map .cdma_p_rev),
   (.time_zone_3gpp, o.time_zone_3gpp.map time_zone_3gpp_line),
   (.daylight_saving_time_adjustment_3gpp,
    o.daylight_saving_time_adjustment_3gpp.map .daylight_saving_time_adjustment_3gpp),
   (.lac_3gpp, o.lac_3gpp.map .lac_3gpp),
   (.cid_3gpp, o.cid_3gpp.map .cid_3gpp),
   (.concurrent_service_info_3gpp2,
    o.concurrent_service_info_3gpp2.map .concurrent_service_info_3gpp2),
   (.prl_indicator_3gpp2, o.prl_indicator_3gpp2.map .prl_indicator_3gpp2)]

/-- Probe blocks 17-24 of get_serving_system_ready, in source order. -/
def servingSystemGroupsC (o : ServingSystemOutput) : List (ServGroup × Option ServLine) :=
  [(.dual_transfer_mode_supported,
    o.dual_transfer_mode_supported.map .dual_transfer_mode_supported),
   (.detailed_service_status, o.detailed_service_status.map .detailed_service_status),
   (.cdma_system_info, o.cdma_system_info.map cdma_system_info_line),
   (.hdr_personality, o.hdr_personality.map .hdr_personality),
   (.lte_tac, o.lte_tac.map .lte_tac),
   (.call_barring_status, o.call_barring_status.map call_barring_line),
   (.umts_primary_scrambling_code,
    o.umts_primary_scrambling_code.map .umts_primary_scrambling_code),
   (.mnc_pcs_digit_include_status,
    o.mnc_pcs_digit_include_status.map mnc_pcs_digit_line)]

/-- All 24 probe blocks of get_serving_system_ready in source order. -/
def servingSystemGroups (o : ServingSystemOutput) : List (ServGroup × Option ServLine) :=
  servingSystemGroupsA o ++ servingSystemGroupsB o ++ servingSystemGroupsC o

def servingSystemPresent (o : ServingSystemOutput) : ServGroup → Bool
  | .serving_system => true
  | .roaming_indicator => o.roaming_indicator.isSome
  | .data_service_capability => o.data_service_capability.isSome
  | .current_plmn => o.current_plmn.isSome
  | .cdma_system_id => o.cdma_system_id.isSome
  | .cdma_base_station_info => o.cdma_base_station_info.isSome
  | .roaming_indicator_list => o.roaming_indicator_list.isSome
  | .default_roaming_indicator => o.default_roaming_indicator.isSome
  | .time_zone_3gpp2 => o.time_zone_3gpp2.isSome
  | .cdma_p_rev => o.cdma_p_rev.isSome
  | .time_zone_3gpp => o.time_zone_3gpp.isSome
  | .daylight_saving_time_adjustment_3gpp =>
      o.daylight_saving_time_adjustment_3gpp.isSome
  | .lac_3gpp => o.lac_3gpp.isSome
  | .cid_3gpp => o.cid_3gpp.isSome
  | .concurrent_service_info_3gpp2 => o.concurrent_service_info_3gpp2.isSome
  | .prl_indicator_3gpp2 => o.prl_indicator_3gpp2.isSome
  | .dual_transfer_mode_supported => o.dual_transfer_mode_supported.isSome
  | .detailed_service_status => o.detailed_service_status.isSome
  | .cdma_system_info => o.cdma_system_info.isSome
  | .hdr_personality => o.hdr_personality.isSome
  | .lte_tac => o.lte_tac.isSome
  | .call_barring_status => o.call_barring_status.isSome
  | .umts_primary_scrambling_code => o.umts_primary_scrambling_code.isSome
  | .mnc_pcs_digit_include_status => o.mnc_pcs_digit_include_status.isSome

/-- The fixed probe order of get_serving_system_ready. -/
def servingSystemOrder : List ServGroup :=
  [.serving_system, .roaming_indicator, .data_service_capability, .current_plmn,
   .cdma_system_id, .cdma_base_station_info, .roaming_indicator_list,
   .default_roaming_indicator, .time_zone_3gpp2, .cdma_p_rev, .time_zone_3gpp,
   .daylight_saving_time_adjustment_3gpp, .lac_3gpp, .cid_3gpp,
   .concurrent_service_info_3gpp2, .prl_indicator_3gpp2,
   .dual_transfer_mode_supported, .detailed_service_status, .cdma_system_info,
   .hdr_personality, .lte_tac, .call_barring_status,
   .umts_primary_scrambling_code, .mnc_pcs_digit_include_status]

def get_serving_system_ready (device : String)
    (res : Except String ServingSystemOutput) : CbResult ServGroup ServLine :=
  match res with
  | .error msg =>
    { probed := [], lines := [.errorOperationFailed msg], shutdowns := [false] }
  | .ok output =>
    match output.result with
    | .error msg =>
      { probed := [], lines := [.errorResult msg], shutdowns := [false] }
    | .ok _ =>
      { probed := servingSystemOrder,
        lines := .successHeader device :: emitLines (servingSystemGroups output),
        shutdowns := [true] }

/-! ## get_technology_preference_ready -/

/-- The decoded QmiMessageNasGetTechnologyPreferenceOutput.  `active` is
read by an accessor whose return value the source ignores (its values are
printed unconditionally); `persistent` is probed with `if`.  A preference
is the raw QmiNasRadioTechnologyPreference mask, a duration the raw
QmiNasPreferenceDuration enum. -/
structure TechnologyPreferenceOutput where
  result : Except String Unit
  active : Option (Nat × Nat)
  persistent : Option Nat

inductive TPGroup
  | active
  | persistent
deriving DecidableEq, Repr

/-- One vararg of a technology-preference g_print, tagged with the libqmi
stringifier applied to it in the source. -/
inductive TPFormatArg
  | device_path_display (s : String)
  | preference_mask_string (mask : Nat)
  | preference_duration_string (duration : Nat)
deriving DecidableEq, Repr

inductive TPLine
  | errorOperationFailed (message : String)
  | errorResult (message : String)
  | activeLine (device : String) (v : Option (Nat × Nat))
  | persistentLine (args : List TPFormatArg)
deriving DecidableEq, Repr

/-- The varargs of the "Persistent: '%s', duration: '%s'" g_print, in the
order the source passes them: first the device path display, then the
preference string built from the persistent mask — and nothing else. -/
def persistent_print_args (device : String) (preference : Nat) : List TPFormatArg :=
  [.device_path_display device, .preference_mask_string preference]

def persistent_line (device : String) (preference : Nat) : TPLine :=
  .persistentLine (persistent_print_args device preference)

def technologyPreferenceGroups (device : String) (o : TechnologyPreferenceOutput) :
    List (TPGroup × Option TPLine) :=
  [(.active, some (.activeLine device o.active)),
   (.persistent, o.persistent.map (persistent_line device))]

def technologyPreferencePresent (o : TechnologyPreferenceOutput) : TPGroup → Bool
  | .active => true
  | .persistent => o.persistent.isSome

/-- The fixed probe order of get_technology_preference_ready. -/
def technologyPreferenceOrder : List TPGroup :=
  [.active, .persistent]

/-- get_technology_preference_ready.  On success the active block (header
g_print) is printed unconditionally, then the persistent block if present. -/
def get_technology_preference_ready (device : String)
    (res : Except String TechnologyPreferenceOutput) : CbResult TPGroup TPLine :=
  match res with
  | .error msg =>
    { probed := [], lines := [.errorOperationFailed msg], shutdowns := [false] }
  | .ok output =>
    match output.result with
    | .error msg =>
      { probed := [], lines := [.errorResult msg], shutdowns := [false] }
    | .ok _ =>
      { probed := technologyPreferenceOrder,
        lines := emitLines (technologyPreferenceGroups device output),
        shutdowns := [true] }

/-! ## get_system_selection_preference_ready -/

/-- The decoded QmiMessageNasGetSystemSelectionPreferenceOutput; every
field group is probed with `if`.  Masks and enums carried raw as Nat. -/
structure SystemSelectionPreferenceOutput where
  result : Except String Unit
  emergency_mode : Option Bool
  mode_preference : Option Nat
  band_preference : Option Nat
  lte_band_preference : Option Nat
  td_scdma_band_preference : Option Nat
  cdma_prl_preference : Option Nat
  roaming_preference : Option Nat
  network_selection_preference : Option Nat
  service_domain_preference : Option Nat
  gsm_wcdma_acquisition_order_preference : Option Nat
  manual_network_selection : Option (Nat × Nat × Bool)

inductive SysSelGroup
  | emergency_mode
  | mode_preference
  | band_preference
  | lte_band_preference
  | td_scdma_band_preference
  | cdma_prl_preference
  | roaming_preference
  | network_selection_preference
  | service_domain_preference
  | gsm_wcdma_acquisition_order_preference
  | manual_network_selection
deriving DecidableEq, Repr

inductive SysSelLine
  | errorOperationFailed (message : String)
  | errorResult (message : String)
  | successHeader (device : String)
  | emergency_mode (enabled_mode : Bool)
  | mode_preference (mask : Nat)
  | band_preference (mask : Nat)
  | lte_band_preference (mask : Nat)
  | td_scdma_band_preference (mask : Nat)
  | cdma_prl_preference (preference : Nat)
  | roaming_preference (preference : Nat)
  | network_selection_preference (preference : Nat)
  | service_domain_preference (preference : Nat)
  | gsm_wcdma_acquisition_order_preference (preference : Nat)
  | manual_network_selection (mcc : Nat) (mnc : Nat) (has_pcs_digit : Bool)
deriving DecidableEq, Repr

def manual_network_selection_line : Nat × Nat × Bool → SysSelLine
  | (mcc, mnc, has_pcs_digit) => .manual_network_selection mcc mnc has_pcs_digit

/-- The eleven probe blocks of get_system_selection_preference_ready, in
source order (split in two defs to keep elaboration tractable). -/
def systemSelectionGroupsA (o : SystemSelectionPreferenceOutput) :
    List (SysSelGroup × Option SysSelLine) :=
  [(.emergency_mode, o.emergency_mode.map .emergency_mode),
   (.mode_preference, o.mode_preference.map .mode_preference),
   (.band_preference, o.band_preference.map .band_preference),
   (.lte_band_preference, o.lte_band_preference.map .lte_band_preference),
   (.td_scdma_band_preference, o.td_scdma_band_preference.map .td_scdma_band_preference),
   (.cdma_prl_preference, o.cdma_prl_preference.map .cdma_prl_preference)]

def systemSelectionGroupsB (o : SystemSelectionPreferenceOutput) :
    List (SysSelGroup × Option SysSelLine) :=
  [(.roaming_preference, o.roaming_preference.map .roaming_preference),
   (.network_selection_preference,
    o.network_selection_preference.map .network_selection_preference),
   (.service_domain_preference,
    o.service_domain_preference.map .service_domain_preference),
   (.gsm_wcdma_acquisition_order_preference,
    o.gsm_wcdma_acquisition_order_preference.map .gsm_wcdma_acquisition_order_preference),
   (.manual_network_selection,
    o.manual_network_selection.map manual_network_selection_line)]

def systemSelectionGroups (o : SystemSelectionPreferenceOutput) :
    List (SysSelGroup × Option SysSelLine) :=
  systemSelectionGroupsA o ++ systemSelectionGroupsB o

def systemSelectionPresent (o : SystemSelectionPreferenceOutput) : SysSelGroup → Bool
  | .emergency_mode => o.emergency_mode.isSome
  | .mode_preference => o.mode_preference.isSome
  | .band_preference => o.band_preference.isSome
  | .lte_band_preference => o.lte_band_preference.isSome
  | .td_scdma_band_preference => o.td_scdma_band_preference.isSome
  | .cdma_prl_preference => o.cdma_prl_preference.isSome
  | .roaming_preference => o.roaming_preference.isSome
  | .network_selection_preference => o.network_selection_preference.isSome
  | .service_domain_preference => o.service_domain_preference.isSome
  | .gsm_wcdma_acquisition_order_preference =>
      o.gsm_wcdma_acquisition_order_preference.isSome
  | .manual_network_selection => o.manual_network_selection.isSome

def systemSelectionOrder : List SysSelGroup :=
  [.emergency_mode, .mode_preference, .band_preference, .lte_band_preference,
   .td_scdma_band_preference, .cdma_prl_preference, .roaming_preference,
   .network_selection_preference, .service_domain_preference,
   .gsm_wcdma_acquisition_order_preference, .manual_network_selection]

def get_system_selection_preference_ready (device : String)
    (res : Except String SystemSelectionPreferenceOutput) :
    CbResult SysSelGroup SysSelLine :=
  match res with
  | .error msg =>
    { probed := [], lines := [.errorOperationFailed msg], shutdowns := [false] }
  | .ok output =>
    match output.result with
    | .error msg =>
      { probed := [], lines := [.errorResult msg], shutdowns := [false] }
    | .ok _ =>
      { probed := systemSelectionOrder,
        lines := .successHeader device :: emitLines (systemSelectionGroups output),
        shutdowns := [true] }

/-! ## network_scan_ready -/

/-- The decoded QmiMessageNasNetworkScanOutput: three optional list
groups.  network_information entries carry (mcc, mnc, network_status mask,
description). -/
structure NetworkScanOutput where
  result : Except String Unit
  network_information : Option (List (Nat × Nat × Nat × String))
  radio_access_technology : Option (List (Nat × Nat × Nat))
  mnc_pcs_digit_include_status : Option (List (Nat × Nat × Bool))

inductive ScanGroup
  | network_information
  | radio_access_technology
  | mnc_pcs_digit_include_status
deriving DecidableEq, Repr

inductive ScanLine
  | errorOperationFailed (message : String)
  | errorResult (message : String)
  | successHeader (device : String)
  | network_information (entries : List (Nat × Nat × Nat × String))
  | radio_access_technology (entries : List (Nat × Nat × Nat))
  | mnc_pcs_digit_include_status (entries : List (Nat × Nat × Bool))
deriving DecidableEq, Repr

def networkScanGroups (o : NetworkScanOutput) : List (ScanGroup × Option ScanLine) :=
  [(.network_information, o.network_information.map .network_information),
   (.radio_access_technology, o.radio_access_technology.map .radio_access_technology),
   (.mnc_pcs_digit_include_status,
    o.mnc_pcs_digit_include_status.map .mnc_pcs_digit_include_status)]

def networkScanPresent (o : NetworkScanOutput) : ScanGroup → Bool
  | .network_information => o.network_information.isSome
  | .radio_access_technology => o.radio_access_technology.isSome
  | .mnc_pcs_digit_include_status => o.mnc_pcs_digit_include_status.isSome

/-- The fixed probe order of network_scan_ready. -/
def networkScanOrder : List ScanGroup :=
  [.network_information, .radio_access_technology, .mnc_pcs_digit_include_status]

def network_scan_ready (device : String)
    (res : Except String NetworkScanOutput) : CbResult ScanGroup ScanLine :=
  match res with
  | .error msg =>
    { probed := [], lines := [.errorOperationFailed msg], shutdowns := [false] }
  | .ok output =>
    match output.result with
    | .error msg =>
      { probed := [], lines := [.errorResult msg], shutdowns := [false] }
    | .ok _ =>
      { probed := networkScanOrder,
        lines := .successHeader device :: emitLines (networkScanGroups output),
        shutdowns := [true] }

/-! ## reset_ready and noop_cb -/

/-- The decoded QmiMessageNasResetOutput: only the overall result. -/
structure ResetOutput where
  result : Except String Unit

inductive ResetLine
  | errorOperationFailed (message : String)
  | errorResult (message : String)
  | successHeader (device : String)
deriving DecidableEq, Repr

def reset_ready (device : String)
    (res : Except String ResetOutput) : CbResult Empty ResetLine :=
  match res with
  | .error msg =>
    { probed := [], lines := [.errorOperationFailed msg], shutdowns := [false] }
  | .ok output =>
    match output.result with
    | .error msg =>
      { probed := [], lines := [.errorResult msg], shutdowns := [false] }
    | .ok _ =>
      { probed := [], lines := [.successHeader device], shutdowns := [true] }

/-- noop_cb: the idle callback scheduled for --nas-noop; it only calls
shutdown (TRUE). -/
def noop_cb : CbResult Empty Empty :=
  { probed := [], lines := [], shutdowns := [true] }

/-! ## One whole invocation: run plus the single completion

The transport collaborator fires the registered callback exactly once
(spec §5/§6), delivering either a transport error or the decoded output of
the submitted operation.  `Completion` is that single delivery event. -/

inductive Completion
  | transport_error (message : String)
  | signal_strength_output (o : SignalStrengthOutput)
  | signal_info_output (o : SignalInfoOutput)
  | serving_system_output (o : ServingSystemOutput)
  | technology_preference_output (o : TechnologyPreferenceOutput)
  | system_selection_preference_output (o : SystemSelectionPreferenceOutput)
  | network_scan_output (o : NetworkScanOutput)
  | reset_output (o : ResetOutput)

/-- A completion the transport can actually deliver for the given pending
state: any transport error, or the output type of the submitted operation;
the noop idle callback needs no delivery; with nothing pending no callback
ever fires. -/
def pendingCompatible : Pending → Completion → Bool
  | .idleScheduled, _ => true
  | .none_pending, _ => false
  | .submitted op _ _, c =>
    match op, c with
    | _, .transport_error _ => true
    | .getSignalStrength, .signal_strength_output _ => true
    | .getSignalInfo, .signal_info_output _ => true
    | .getServingSystem, .serving_system_output _ => true
    | .getTechnologyPreference, .technology_preference_output _ => true
    | .getSystemSelectionPreference, .system_selection_preference_output _ => true
    | .networkScan, .network_scan_output _ => true
    | .reset, .reset_output _ => true
    | _, _ => false

/-- The shutdown calls made by the continuation registered in `p` when the
completion `c` is delivered (empty when `c` is not a completion the
transport would deliver for `p`). -/
def continuationShutdowns (device : String) (p : Pending) (c : Completion) :
    List Bool :=
  match p with
  | .idleScheduled => noop_cb.shutdowns
  | .none_pending => []
  | .submitted op _ _ =>
    match op, c with
    | .getSignalStrength, .transport_error m =>
        (get_signal_strength_ready device (.error m)).shutdowns
    | .getSignalStrength, .signal_strength_output o =>
        (get_signal_strength_ready device (.ok o)).shutdowns
    | .getSignalInfo, .transport_error m =>
        (get_signal_info_ready device (.error m)).shutdowns
    | .getSignalInfo, .signal_info_output o =>
        (get_signal_info_ready device (.ok o)).shutdowns
    | .getServingSystem, .transport_error m =>
        (get_serving_system_ready device (.error m)).shutdowns
    | .getServingSystem, .serving_system_output o =>
        (get_serving_system_ready device (.ok o)).shutdowns
    | .getTechnologyPreference, .transport_error m =>
        (get_technology_preference_ready device (.error m)).shutdowns
    | .getTechnologyPreference, .technology_preference_output o =>
        (get_technology_preference_ready device (.ok o)).shutdowns
    | .getSystemSelectionPreference, .transport_error m =>
        (get_system_selection_preference_ready device (.error m)).shutdowns
    | .getSystemSelectionPreference, .system_selection_preference_output o =>
        (get_system_selection_preference_ready device (.ok o)).shutdowns
    | .networkScan, .transport_error m =>
        (network_scan_ready device (.error m)).shutdowns
    | .networkScan, .network_scan_output o =>
        (network_scan_ready device (.ok o)).shutdowns
    | .reset, .transport_error m =>
        (reset_ready device (.error m)).shutdowns
    | .reset, .reset_output o =>
        (reset_ready device (.ok o)).shutdowns
    | _, _ => []

/-- Every shutdown call of one whole invocation: those made synchronously
inside qmicli_nas_run, followed by those of the completion continuation. -/
def invocationShutdowns (f : Flags) (cancellable set_request_mask_ok : Bool)
    (device : String) (c : Completion) : List Bool :=
  let r := qmicli_nas_run f cancellable set_request_mask_ok
  r.shutdowns ++ continuationShutdowns device r.pending c

/-- Modelled from the spec: the outer process driver (qmicli.c, outside
src/) first calls qmicli_nas_options_enabled and only reaches
qmicli_nas_run when that check returned TRUE; an exitFailure outcome
terminates the process at once, so no invocation context is ever created
and nothing is submitted. -/
def nas_subsystem_invocation (f : Flags) (cancellable set_request_mask_ok : Bool) :
    Option RunResult :=
  match qmicli_nas_options_enabled f initialOptionsState with
  | (.exitFailure _, _) => none
  | (.enabled false, _) => none
  | (.enabled true, _) => some (qmicli_nas_run f cancellable set_request_mask_ok)

/-! ## Theorems -/

/-- C10: with all eight action flags false, qmicli_nas_run still allocates
the Context and takes the device and client references, but submits no
request, schedules no completion, never frees the context and never emits
the finished signal (no shutdown call on any path). -/
theorem run_without_flags (cancellable set_request_mask_ok : Bool)
    (device : String) (c : Completion) :
    (qmicli_nas_run ⟨false, false, false, false, false, false, false, false⟩
        cancellable set_request_mask_ok).ctx =
      some { device := true, client := true, cancellable := cancellable }
    ∧ (qmicli_nas_run ⟨false, false, false, false, false, false, false, false⟩
        cancellable set_request_mask_ok).pending = .none_pending
    ∧ (qmicli_nas_run ⟨false, false, false, false, false, false, false, false⟩
        cancellable set_request_mask_ok).shutdowns = []
    ∧ invocationShutdowns ⟨false, false, false, false, false, false, false, false⟩
        cancellable set_request_mask_ok device c = [] :=
  ⟨rfl, rfl, rfl, rfl⟩

/-- C2 counterexample: when building the signal-strength request payload
fails (the external set_request_mask call fails, so
get_signal_strength_input_create returns NULL), qmicli_nas_run does NOT
proceed to teardown without submitting: it submits the request anyway,
with a NULL payload, and performs no shutdown — refuting the claim at this
concrete input. -/
theorem input_create_failure_submits_anyway_cex :
    (qmicli_nas_run ⟨true, false, false, false, false, false, false, false⟩
        true false).pending = .submitted .getSignalStrength none 10
    ∧ (qmicli_nas_run ⟨true, false, false, false, false, false, false, false⟩
        true false).shutdowns = [] :=
  ⟨rfl, rfl⟩

/-- C2 amended: if local construction of the signal-strength request
payload fails, the condition is reported ("couldn't create input data
bundle"), but the dispatcher still submits the request — with a NULL
payload — and does not tear the context down early; teardown only happens
later, in the completion callback, as on every other path. -/
theorem input_create_failure_behaviour (cancellable : Bool) :
    get_signal_strength_input_create false = (none, true)
    ∧ (qmicli_nas_run ⟨true, false, false, false, false, false, false, false⟩
        cancellable false).input_create_error = true
    ∧ (qmicli_nas_run ⟨true, false, false, false, false, false, false, false⟩
        cancellable false).pending = .submitted .getSignalStrength none 10
    ∧ (qmicli_nas_run ⟨true, false, false, false, false, false, false, false⟩
        cancellable false).shutdowns = [] :=
  ⟨rfl, rfl, rfl, rfl⟩

/-- C4: with more than one action flag set, qmicli_nas_options_enabled
exits the process with the "too many NAS actions" error before any network
activity (no context is created, nothing submitted); with zero flags it
reports disabled, with exactly one it reports enabled; and the checked
result is cached: any second call within the process returns the same
answer unchanged, without re-evaluating the (possibly different) flags. -/
theorem options_enabled_check (f g : Flags) (cancellable set_request_mask_ok : Bool) :
    (1 < countActions f →
      (qmicli_nas_options_enabled f initialOptionsState).1 =
        .exitFailure "error: too many NAS actions requested"
      ∧ nas_subsystem_invocation f cancellable set_request_mask_ok = none)
    ∧ (countActions f = 0 →
      (qmicli_nas_options_enabled f initialOptionsState).1 = .enabled false)
    ∧ (countActions f = 1 →
      (qmicli_nas_options_enabled f initialOptionsState).1 = .enabled true)
    ∧ (countActions f ≤ 1 →
      qmicli_nas_options_enabled g (qmicli_nas_options_enabled f initialOptionsState).2 =
        ((qmicli_nas_options_enabled f initialOptionsState).1,
         (qmicli_nas_options_enabled f initialOptionsState).2)) := by
  refine ⟨fun h => ⟨?_, ?_⟩, fun h => ?_, fun h => ?_, fun h => ?_⟩
  · simp [qmicli_nas_options_enabled, initialOptionsState, h]
  · simp [nas_subsystem_invocation, qmicli_nas_options_enabled, initialOptionsState, h]
  · simp [qmicli_nas_options_enabled, initialOptionsState, h]
  · simp [qmicli_nas_options_enabled, initialOptionsState, h]
  · have h2 : ¬ (1 < countActions f) := by omega
    simp [qmicli_nas_options_enabled, initialOptionsState, h2]

/-- Witness for options_enabled_check at concrete flag sets: a two-flag
conflict exits and runs nothing, zero flags report disabled, one flag
reports enabled, and a repeat call with different flags returns the cached
answer. -/
theorem options_enabled_check_witness :
    ((qmicli_nas_options_enabled ⟨true, true, false, false, false, false, false, false⟩
        initialOptionsState).1 =
      .exitFailure "error: too many NAS actions requested"
     ∧ nas_subsystem_invocation ⟨true, true, false, false, false, false, false, false⟩
        true true = none)
    ∧ (qmicli_nas_options_enabled ⟨false, false, false, false, false, false, false, false⟩
        initialOptionsState).1 = .enabled false
    ∧ (qmicli_nas_options_enabled ⟨false, false, true, false, false, false, false, false⟩
        initialOptionsState).1 = .enabled true
    ∧ qmicli_nas_options_enabled ⟨false, true, false, false, false, false, false, false⟩
        (qmicli_nas_options_enabled ⟨false, false, true, false, false, false, false, false⟩
          initialOptionsState).2 =
      ((qmicli_nas_options_enabled ⟨false, false, true, false, false, false, false, false⟩
          initialOptionsState).1,
       (qmicli_nas_options_enabled ⟨false, false, true, false, false, false, false, false⟩
          initialOptionsState).2) :=
  ⟨(options_enabled_check ⟨true, true, false, false, false, false, false, false⟩
      ⟨true, true, false, false, false, false, false, false⟩ true true).1 (by decide),
   (options_enabled_check ⟨false, false, false, false, false, false, false, false⟩
      ⟨false, false, false, false, false, false, false, false⟩ true true).2.1 (by decide),
   (options_enabled_check ⟨false, false, true, false, false, false, false, false⟩
      ⟨false, false, true, false, false, false, false, false⟩ true true).2.2.1 (by decide),
   (options_enabled_check ⟨false, false, true, false, false, false, false, false⟩
      ⟨false, true, false, false, false, false, false, false⟩ true true).2.2.2 (by decide)⟩

/-- C5: the SINR-level-to-dB conversion is the exact 9-entry lookup
{-9, -6, -4.5, -3, -2, 1, 3, 6, 9}; any level outside 0..8 is flagged as
an invalid enumeration (the warning branch), is never clamped to a table
entry, does not crash, and decoding of the subsequent signal-info groups
continues. -/
theorem sinr_level_lookup (k : Nat) (q : ℚ) (device : String) (rssi : Int)
    (ecio : Nat) (io_dbm : Int) (gsm_rssi : Int) (wcdma_v : Int × Nat)
    (lte_v : Int × Int × Int × Int) (tdma_rscp : Int) :
    (get_db_from_sinr_level 0 = .db (-9) ∧ get_db_from_sinr_level 1 = .db (-6) ∧
     get_db_from_sinr_level 2 = .db (-(9/2)) ∧ get_db_from_sinr_level 3 = .db (-3) ∧
     get_db_from_sinr_level 4 = .db (-2) ∧ get_db_from_sinr_level 5 = .db 1 ∧
     get_db_from_sinr_level 6 = .db 3 ∧ get_db_from_sinr_level 7 = .db 6 ∧
     get_db_from_sinr_level 8 = .db 9)
    ∧ get_db_from_sinr_level (k + 9) = .invalid_warning (k + 9)
    ∧ get_db_from_sinr_level (k + 9) ≠ .db q
    ∧ (get_signal_info_ready device (.ok
        ⟨.ok (), none, some (rssi, ecio, k + 9, io_dbm), some gsm_rssi,
         some wcdma_v, some lte_v, some tdma_rscp⟩)).lines =
      [.successHeader device,
       .hdr rssi (-(1/2 : ℚ) * (ecio : ℚ)) (k + 9) (.invalid_warning (k + 9)) io_dbm,
       .gsm gsm_rssi, wcdma_signal_line wcdma_v, lte_signal_line lte_v,
       .tdma tdma_rscp]
    ∧ (get_signal_info_ready device (.ok
        ⟨.ok (), none, some (rssi, ecio, k + 9, io_dbm), some gsm_rssi,
         some wcdma_v, some lte_v, some tdma_rscp⟩)).shutdowns = [true] :=
  ⟨⟨rfl, rfl, rfl, rfl, rfl, rfl, rfl, rfl, rfl⟩, rfl,
   fun h => SinrDb.noConfusion h, rfl, rfl⟩

/-- C8: every ECIO field is converted to dB by multiplying the raw
unsigned value by -0.5, at all four rendering sites (CDMA, HDR and WCDMA
signal-info groups, and each entry of the signal-strength ECIO list); raw
10 renders as -5.0 and raw 0 as 0.0. -/
theorem ecio_conversion (rssi : Int) (ecio sinr_level radio : Nat) (io_dbm : Int)
    (entries : List (Nat × Nat)) :
    cdma_signal_line (rssi, ecio) = .cdma rssi (-(1/2 : ℚ) * (ecio : ℚ))
    ∧ hdr_signal_line (rssi, ecio, sinr_level, io_dbm) =
        .hdr rssi (-(1/2 : ℚ) * (ecio : ℚ)) sinr_level
          (get_db_from_sinr_level sinr_level) io_dbm
    ∧ wcdma_signal_line (rssi, ecio) = .wcdma rssi (-(1/2 : ℚ) * (ecio : ℚ))
    ∧ ecio_list_line entries =
        .ecio_list (entries.map (fun e => (e.1, -(1/2 : ℚ) * (e.2 : ℚ))))
    ∧ cdma_signal_line (rssi, 10) = .cdma rssi (-5)
    ∧ cdma_signal_line (rssi, 0) = .cdma rssi 0
    ∧ ecio_list_line [(radio, 10), (radio, 0)] = .ecio_list [(radio, -5), (radio, 0)] := by
  refine ⟨rfl, rfl, rfl, rfl, ?_, ?_, ?_⟩ <;>
    simp [cdma_signal_line, ecio_list_line] <;> norm_num

/-- C9: in the serving-system report the 3GPP2 local time-zone offset is
rendered as the raw signed byte times 30 minutes and the 3GPP offset as
the raw signed byte times 15 minutes; raw 3GPP2 byte 2 gives 60 minutes
and raw 3GPP byte -4 gives -60 minutes; and these are exactly the lines
the serving-system decoder emits for those groups. -/
theorem time_zone_conversion (leap_seconds : Nat) (offset tz : Int) (dst : Bool)
    (device : String) (mand : Option (Nat × Nat × Nat × Nat × List Nat)) :
    time_zone_3gpp2_line (leap_seconds, offset, dst) =
      .time_zone_3gpp2 leap_seconds (offset * 30) dst
    ∧ time_zone_3gpp_line tz = .time_zone_3gpp (tz * 15)
    ∧ time_zone_3gpp2_line (0, 2, false) = .time_zone_3gpp2 0 60 false
    ∧ time_zone_3gpp_line (-4) = .time_zone_3gpp (-60)
    ∧ (get_serving_system_ready device (.ok
        ⟨.ok (), mand, none, none, none, none, none, none, none,
         some (leap_seconds, offset, dst), none, some tz, none, none, none,
         none, none, none, none, none, none, none, none, none, none⟩)).lines =
      [.successHeader device, .serving_system mand,
       .time_zone_3gpp2 leap_seconds (offset * 30) dst,
       .time_zone_3gpp (tz * 15)] :=
  ⟨rfl, rfl, rfl, rfl, rfl⟩

/-- C7 counterexample: in the technology-preference "Persistent" report
line the device-identifier display string is the FIRST vararg, not the
second: at device "d" and persistent mask 5 the second format argument is
the preference string built from the mask, and is not the device
identifier — refuting the claim as stated. -/
theorem persistent_line_second_arg_cex :
    (persistent_print_args "d" 5).get? 1 = some (.preference_mask_string 5)
    ∧ (persistent_print_args "d" 5).get? 1 ≠ some (.device_path_display "d")
    ∧ (persistent_print_args "d" 5).get? 0 = some (.device_path_display "d")
    ∧ (get_technology_preference_ready "d" (.ok ⟨.ok (), some (3, 7), some 5⟩)).lines =
        [.activeLine "d" (some (3, 7)),
         .persistentLine [.device_path_display "d", .preference_mask_string 5]] :=
  ⟨rfl, by decide, rfl, rfl⟩

/-- C7 amended: when the persistent group is present, the "Persistent"
report line receives exactly two format arguments, in this order: first
the device-identifier display string (where a preference string belongs —
the formatting defect), then the preference string built from the
persistent mask (which lands in the duration slot); no duration argument
is passed at all. -/
theorem persistent_line_format_args (device : String) (active : Option (Nat × Nat))
    (preference : Nat) :
    persistent_print_args device preference =
      [.device_path_display device, .preference_mask_string preference]
    ∧ (get_technology_preference_ready device (.ok ⟨.ok (), active, some preference⟩)).lines =
        [.activeLine device active,
         .persistentLine [.device_path_display device, .preference_mask_string preference]] :=
  ⟨rfl, rfl⟩

/-- C3: for every operation, when the envelope's overall result denotes
failure the callback reports the service-supplied detail and finishes
unsuccessfully without probing a single field group: the probe list is
empty, the only output line is the error report, and the one shutdown is
unsuccessful. -/
theorem result_failure_short_circuits (device msg : String)
    (a1 : Option (Int × Nat)) (a2 : Option (List (Nat × Int)))
    (a3 a4 : Option (List (Nat × Nat))) (a5 : Option Int) (a6 : Option Nat)
    (a7 : Option (Int × Nat)) (a8 a9 : Option Int)
    (b1 : Option (Int × Nat)) (b2 : Option (Int × Nat × Nat × Int))
    (b3 : Option Int) (b4 : Option (Int × Nat))
    (b5 : Option (Int × Int × Int × Int)) (b6 : Option Int)
    (c1 : Option (Nat × Nat × Nat × Nat × List Nat)) (c2 : Option Nat)
    (c3 : Option (List Nat)) (c4 : Option (Nat × Nat × String))
    (c5 : Option (Nat × Nat)) (c6 : Option (Nat × Int × Int))
    (c7 : Option (List (Nat × Nat))) (c8 : Option Nat)
    (c9 : Option (Nat × Int × Bool)) (c10 : Option Nat) (c11 : Option Int)
    (c12 c13 c14 : Option Nat) (c15 c16 c17 : Option Bool)
    (c18 : Option (Nat × Nat × Nat × Bool × Bool)) (c19 : Option (Nat × Nat))
    (c20 c21 : Option Nat) (c22 : Option (Nat × Nat)) (c23 : Option Nat)
    (c24 : Option (Nat × Nat × Bool))
    (d1 : Option (Nat × Nat)) (d2 : Option Nat)
    (e1 : Option Bool) (e2 e3 e4 e5 e6 e7 e8 e9 e10 : Option Nat)
    (e11 : Option (Nat × Nat × Bool))
    (s1 : Option (List (Nat × Nat × Nat × String)))
    (s2 : Option (List (Nat × Nat × Nat)))
    (s3 : Option (List (Nat × Nat × Bool))) :
    get_signal_strength_ready device
        (.ok ⟨.error msg, a1, a2, a3, a4, a5, a6, a7, a8, a9⟩) =
      { probed := [], lines := [.errorResult msg], shutdowns := [false] }
    ∧ get_signal_info_ready device
        (.ok ⟨.error msg, b1, b2, b3, b4, b5, b6⟩) =
      { probed := [], lines := [.errorResult msg], shutdowns := [false] }
    ∧ get_serving_system_ready device
        (.ok ⟨.error msg, c1, c2, c3, c4, c5, c6, c7, c8, c9, c10, c11, c12,
              c13, c14, c15, c16, c17, c18, c19, c20, c21, c22, c23, c24⟩) =
      { probed := [], lines := [.errorResult msg], shutdowns := [false] }
    ∧ get_technology_preference_ready device (.ok ⟨.error msg, d1, d2⟩) =
      { probed := [], lines := [.errorResult msg], shutdowns := [false] }
    ∧ get_system_selection_preference_ready device
        (.ok ⟨.error msg, e1, e2, e3, e4, e5, e6, e7, e8, e9, e10, e11⟩) =
      { probed := [], lines := [.errorResult msg], shutdowns := [false] }
    ∧ network_scan_ready device (.ok ⟨.error msg, s1, s2, s3⟩) =
      { probed := [], lines := [.errorResult msg], shutdowns := [false] }
    ∧ reset_ready device (.ok ⟨.error msg⟩) =
      { probed := [], lines := [.errorResult msg], shutdowns := [false] } :=
  ⟨rfl, rfl, rfl, rfl, rfl, rfl, rfl⟩

/-! ### Per-callback shutdown counts (helper lemmas) -/

theorem shutdowns_length_signal_strength (device : String)
    (res : Except String SignalStrengthOutput) :
    (get_signal_strength_ready device res).shutdowns.length = 1 := by
  rcases res with msg | o
  · rfl
  · obtain ⟨r, a1, a2, a3, a4, a5, a6, a7, a8, a9⟩ := o
    cases r <;> rfl

theorem shutdowns_length_signal_info (device : String)
    (res : Except String SignalInfoOutput) :
    (get_signal_info_ready device res).shutdowns.length = 1 := by
  rcases res with msg | o
  · rfl
  · obtain ⟨r, b1, b2, b3, b4, b5, b6⟩ := o
    cases r <;> rfl

theorem shutdowns_length_serving_system (device : String)
    (res : Except String ServingSystemOutput) :
    (get_serving_system_ready device res).shutdowns.length = 1 := by
  rcases res with msg | o
  · rfl
  · obtain ⟨r, c1, c2, c3, c4, c5, c6, c7, c8, c9, c10, c11, c12, c13, c14,
      c15, c16, c17, c18, c19, c20, c21, c22, c23, c24⟩ := o
    cases r <;> rfl

theorem shutdowns_length_technology_preference (device : String)
    (res : Except String TechnologyPreferenceOutput) :
    (get_technology_preference_ready device res).shutdowns.length = 1 := by
  rcases res with msg | o
  · rfl
  · obtain ⟨r, d1, d2⟩ := o
    cases r <;> rfl

theorem shutdowns_length_system_selection (device : String)
    (res : Except String SystemSelectionPreferenceOutput) :
    (get_system_selection_preference_ready device res).shutdowns.length = 1 := by
  rcases res with msg | o
  · rfl
  · obtain ⟨r, e1, e2, e3, e4, e5, e6, e7, e8, e9, e10, e11⟩ := o
    cases r <;> rfl

theorem shutdowns_length_network_scan (device : String)
    (res : Except String NetworkScanOutput) :
    (network_scan_ready device res).shutdowns.length = 1 := by
  rcases res with msg | o
  · rfl
  · obtain ⟨r, s1, s2, s3⟩ := o
    cases r <;> rfl

theorem shutdowns_length_reset (device : String)
    (res : Except String ResetOutput) :
    (reset_ready device res).shutdowns.length = 1 := by
  rcases res with msg | o
  · rfl
  · obtain ⟨r⟩ := o
    cases r <;> rfl

/-- C1: with exactly one action flag set, the invocation context teardown
(shutdown: context_free plus the finished(success) signal) is performed
exactly once per invocation — never zero times, never twice — whatever
completion the transport delivers: transport failure, an envelope whose
result fails, or a successful decode. -/
theorem teardown_exactly_once (f : Flags) (cancellable set_request_mask_ok : Bool)
    (device : String) (c : Completion)
    (hone : countActions f = 1)
    (hcompat : pendingCompatible
      (qmicli_nas_run f cancellable set_request_mask_ok).pending c = true) :
    (invocationShutdowns f cancellable set_request_mask_ok device c).length = 1 := by
  obtain ⟨b1, b2, b3, b4, b5, b6, b7, b8⟩ := f
  cases b1 <;> cases b2 <;> cases b3 <;> cases b4 <;>
    cases b5 <;> cases b6 <;> cases b7 <;> cases b8 <;>
    first
    | exact absurd hone (by decide)
    | (cases c <;>
        first
        | exact Bool.noConfusion hcompat
        | simp [invocationShutdowns, qmicli_nas_run, continuationShutdowns, noop_cb,
            shutdowns_length_signal_strength, shutdowns_length_signal_info,
            shutdowns_length_serving_system, shutdowns_length_technology_preference,
            shutdowns_length_system_selection, shutdowns_length_network_scan,
            shutdowns_length_reset])

/-- Witness for teardown_exactly_once: the signal-info invocation with a
transport-error completion tears down exactly once. -/
theorem teardown_exactly_once_witness :
    countActions ⟨false, true, false, false, false, false, false, false⟩ = 1
    ∧ pendingCompatible
        (qmicli_nas_run ⟨false, true, false, false, false, false, false, false⟩
          true true).pending (.transport_error "x") = true
    ∧ (invocationShutdowns ⟨false, true, false, false, false, false, false, false⟩
        true true "d" (.transport_error "x")).length = 1 :=
  ⟨by decide, rfl,
   teardown_exactly_once ⟨false, true, false, false, false, false, false, false⟩
     true true "d" (.transport_error "x") (by decide) rfl⟩

/-! ### Per-operation success decode shape (helper lemmas for C6) -/

theorem signal_strength_success_shape (device : String) (o : SignalStrengthOutput)
    (h : o.result = .ok ()) :
    get_signal_strength_ready device (.ok o) =
      { probed := signalStrengthOrder,
        lines := .successHeader device :: emitLines (signalStrengthGroups o),
        shutdowns := [true] }
    ∧ (signalStrengthGroups o).map Prod.fst = signalStrengthOrder
    ∧ renderedGroups (signalStrengthGroups o) =
        signalStrengthOrder.filter (signalStrengthPresent o) := by
  obtain ⟨r, a1, a2, a3, a4, a5, a6, a7, a8, a9⟩ := o
  cases r with
  | error m => exact Except.noConfusion h
  | ok u =>
    refine ⟨rfl, rfl, ?_⟩
    exact renderedGroups_eq_filter _ _
      (by simp [signalStrengthGroups, signalStrengthPresent, Option.isSome_map'])

theorem signal_info_success_shape (device : String) (o : SignalInfoOutput)
    (h : o.result = .ok ()) :
    get_signal_info_ready device (.ok o) =
      { probed := signalInfoOrder,
        lines := .successHeader device :: emitLines (signalInfoGroups o),
        shutdowns := [true] }
    ∧ (signalInfoGroups o).map Prod.fst = signalInfoOrder
    ∧ renderedGroups (signalInfoGroups o) =
        signalInfoOrder.filter (signalInfoPresent o) := by
  obtain ⟨r, b1, b2, b3, b4, b5, b6⟩ := o
  cases r with
  | error m => exact Except.noConfusion h
  | ok u =>
    refine ⟨rfl, rfl, ?_⟩
    exact renderedGroups_eq_filter _ _
      (by simp [signalInfoGroups, signalInfoPresent, Option.isSome_map'])

theorem serving_system_success_shape (device : String) (o : ServingSystemOutput)
    (h : o.result = .ok ()) :
    get_serving_system_ready device (.ok o) =
      { probed := servingSystemOrder,
        lines := .successHeader device :: emitLines (servingSystemGroups o),
        shutdowns := [true] }
    ∧ (servingSystemGroups o).map Prod.fst = servingSystemOrder
    ∧ renderedGroups (servingSystemGroups o) =
        servingSystemOrder.filter (servingSystemPresent o) := by
  obtain ⟨r, c1, c2, c3, c4, c5, c6, c7, c8, c9, c10, c11, c12, c13, c14,
    c15, c16, c17, c18, c19, c20, c21, c22, c23, c24⟩ := o
  cases r with
  | error m => exact Except.noConfusion h
  | ok u =>
    refine ⟨rfl, rfl, ?_⟩
    exact renderedGroups_eq_filter _ _
      (by simp [servingSystemGroups, servingSystemGroupsA, servingSystemGroupsB,
        servingSystemGroupsC, servingSystemPresent, Option.isSome_map'])

theorem technology_preference_success_shape (device : String)
    (o : TechnologyPreferenceOutput) (h : o.result = .ok ()) :
    get_technology_preference_ready device (.ok o) =
      { probed := technologyPreferenceOrder,
        lines := emitLines (technologyPreferenceGroups device o),
        shutdowns := [true] }
    ∧ (technologyPreferenceGroups device o).map Prod.fst = technologyPreferenceOrder
    ∧ renderedGroups (technologyPreferenceGroups device o) =
        technologyPreferenceOrder.filter (technologyPreferencePresent o) := by
  obtain ⟨r, d1, d2⟩ := o
  cases r with
  | error m => exact Except.noConfusion h
  | ok u =>
    refine ⟨rfl, rfl, ?_⟩
    exact renderedGroups_eq_filter _ _
      (by simp [technologyPreferenceGroups, technologyPreferencePresent,
        Option.isSome_map'])

theorem system_selection_success_shape (device : String)
    (o : SystemSelectionPreferenceOutput) (h : o.result = .ok ()) :
    get_system_selection_preference_ready device (.ok o) =
      { probed := systemSelectionOrder,
        lines := .successHeader device :: emitLines (systemSelectionGroups o),
        shutdowns := [true] }
    ∧ (systemSelectionGroups o).map Prod.fst = systemSelectionOrder
    ∧ renderedGroups (systemSelectionGroups o) =
        systemSelectionOrder.filter (systemSelectionPresent o) := by
  obtain ⟨r, e1, e2, e3, e4, e5, e6, e7, e8, e9, e10, e11⟩ := o
  cases r with
  | error m => exact Except.noConfusion h
  | ok u =>
    refine ⟨rfl, rfl, ?_⟩
    exact renderedGroups_eq_filter _ _
      (by simp [systemSelectionGroups, systemSelectionGroupsA, systemSelectionGroupsB,
        systemSelectionPresent, Option.isSome_map'])

theorem network_scan_success_shape (device : String) (o : NetworkScanOutput)
    (h : o.result = .ok ()) :
    network_scan_ready device (.ok o) =
      { probed := networkScanOrder,
        lines := .successHeader device :: emitLines (networkScanGroups o),
        shutdowns := [true] }
    ∧ (networkScanGroups o).map Prod.fst = networkScanOrder
    ∧ renderedGroups (networkScanGroups o) =
        networkScanOrder.filter (networkScanPresent o) := by
  obtain ⟨r, s1, s2, s3⟩ := o
  cases r with
  | error m => exact Except.noConfusion h
  | ok u =>
    refine ⟨rfl, rfl, ?_⟩
    exact renderedGroups_eq_filter _ _
      (by simp [networkScanGroups, networkScanPresent, Option.isSome_map'])

theorem reset_success_shape (device : String) (o : ResetOutput)
    (h : o.result = .ok ()) :
    reset_ready device (.ok o) =
      { probed := [], lines := [.successHeader device], shutdowns := [true] } := by
  obtain ⟨r⟩ := o
  cases r with
  | error m => exact Except.noConfusion h
  | ok u => rfl

/-- C6: for every operation, on a successful overall result every field
group access is a fallible probe whose absence is never an error: the
callback still probes every accessor (full fixed probe list), finishes
successfully (single successful shutdown), and renders exactly the present
groups — as the fixed source-order group table filtered by per-group
presence, an order independent of which other groups are present. -/
theorem field_groups_optional_fixed_order (device : String)
    (oss : SignalStrengthOutput) (osi : SignalInfoOutput)
    (osv : ServingSystemOutput) (otp : TechnologyPreferenceOutput)
    (osl : SystemSelectionPreferenceOutput) (osc : NetworkScanOutput)
    (ort : ResetOutput)
    (hss : oss.result = .ok ()) (hsi : osi.result = .ok ())
    (hsv : osv.result = .ok ()) (htp : otp.result = .ok ())
    (hsl : osl.result = .ok ()) (hsc : osc.result = .ok ())
    (hrt : ort.result = .ok ()) :
    (get_signal_strength_ready device (.ok oss) =
      { probed := signalStrengthOrder,
        lines := .successHeader device :: emitLines (signalStrengthGroups oss),
        shutdowns := [true] }
     ∧ (signalStrengthGroups oss).map Prod.fst = signalStrengthOrder
     ∧ renderedGroups (signalStrengthGroups oss) =
         signalStrengthOrder.filter (signalStrengthPresent oss))
    ∧ (get_signal_info_ready device (.ok osi) =
      { probed := signalInfoOrder,
        lines := .successHeader device :: emitLines (signalInfoGroups osi),
        shutdowns := [true] }
     ∧ (signalInfoGroups osi).map Prod.fst = signalInfoOrder
     ∧ renderedGroups (signalInfoGroups osi) =
         signalInfoOrder.filter (signalInfoPresent osi))
    ∧ (get_serving_system_ready device (.ok osv) =
      { probed := servingSystemOrder,
        lines := .successHeader device :: emitLines (servingSystemGroups osv),
        shutdowns := [true] }
     ∧ (servingSystemGroups osv).map Prod.fst = servingSystemOrder
     ∧ renderedGroups (servingSystemGroups osv) =
         servingSystemOrder.filter (servingSystemPresent osv))
    ∧ (get_technology_preference_ready device (.ok otp) =
      { probed := technologyPreferenceOrder,
        lines := emitLines (technologyPreferenceGroups device otp),
        shutdowns := [true] }
     ∧ (technologyPreferenceGroups device otp).map Prod.fst = technologyPreferenceOrder
     ∧ renderedGroups (technologyPreferenceGroups device otp) =
         technologyPreferenceOrder.filter (technologyPreferencePresent otp))
    ∧ (get_system_selection_preference_ready device (.ok osl) =
      { probed := systemSelectionOrder,
        lines := .successHeader device :: emitLines (systemSelectionGroups osl),
        shutdowns := [true] }
     ∧ (systemSelectionGroups osl).map Prod.fst = systemSelectionOrder
     ∧ renderedGroups (systemSelectionGroups osl) =
         systemSelectionOrder.filter (systemSelectionPresent osl))
    ∧ (network_scan_ready device (.ok osc) =
      { probed := networkScanOrder,
        lines := .successHeader device :: emitLines (networkScanGroups osc),
        shutdowns := [true] }
     ∧ (networkScanGroups osc).map Prod.fst = networkScanOrder
     ∧ renderedGroups (networkScanGroups osc) =
         networkScanOrder.filter (networkScanPresent osc))
    ∧ reset_ready device (.ok ort) =
      { probed := [], lines := [.successHeader device], shutdowns := [true] } :=
  ⟨signal_strength_success_shape device oss hss,
   signal_info_success_shape device osi hsi,
   serving_system_success_shape device osv hsv,
   technology_preference_success_shape device otp htp,
   system_selection_success_shape device osl hsl,
   network_scan_success_shape device osc hsc,
   reset_success_shape device ort hrt⟩

/-- Witness for field_groups_optional_fixed_order: a signal-strength
envelope with only the ECIO list and SINR level present still probes all
nine accessors, finishes successfully and renders exactly those groups,
in the fixed order. -/
theorem field_groups_optional_fixed_order_witness :
    get_signal_strength_ready "d"
      (.ok ⟨.ok (), some (-85, 8), none, none, some [(2, 10)], none, some 3,
            none, none, none⟩) =
      { probed := signalStrengthOrder,
        lines := .successHeader "d" :: emitLines (signalStrengthGroups
          ⟨.ok (), some (-85, 8), none, none, some [(2, 10)], none, some 3,
           none, none, none⟩),
        shutdowns := [true] }
    ∧ renderedGroups (signalStrengthGroups
        ⟨.ok (), some (-85, 8), none, none, some [(2, 10)], none, some 3,
         none, none, none⟩) =
      signalStrengthOrder.filter (signalStrengthPresent
        ⟨.ok (), some (-85, 8), none, none, some [(2, 10)], none, some 3,
         none, none, none⟩) :=
  ⟨(field_groups_optional_fixed_order "d"
      ⟨.ok (), some (-85, 8), none, none, some [(2, 10)], none, some 3,
       none, none, none⟩
      ⟨.ok (), none, none, none, none, none, none⟩
      ⟨.ok (), none, none, none, none, none, none, none, none, none, none,
       none, none, none, none, none, none, none, none, none, none, none,
       none, none, none⟩
      ⟨.ok (), none, none⟩
      ⟨.ok (), none, none, none, none, none, none, none, none, none, none, none⟩
      ⟨.ok (), none, none, none⟩
      ⟨.ok ()⟩ rfl rfl rfl rfl rfl rfl rfl).1.1,
   (field_groups_optional_fixed_order "d"
      ⟨.ok (), some (-85, 8), none, none, some [(2, 10)], none, some 3,
       none, none, none⟩
      ⟨.ok (), none, none, none, none, none, none⟩
      ⟨.ok (), none, none, none, none, none, none, none, none, none, none,
       none, none, none, none, none, none, none, none, none, none, none,
       none, none, none⟩
      ⟨.ok (), none, none⟩
      ⟨.ok (), none, none, none, none, none, none, none, none, none, none, none⟩
      ⟨.ok (), none, none, none⟩
      ⟨.ok ()⟩ rfl rfl rfl rfl rfl rfl rfl).1.2.2⟩

end QmicliNas
